import Mathlib

/-!
Shallow embedding of the swarm-external-secrets plugin (Go) for verifying the
natural-language specification against the code.

Sources embedded:
  * `driver.go` — fetch driver, tracking registry, rotation engine,
    driver-side locator builders and sanitizers.
  * `providers/aws.go`, `providers/azure.go`, `providers/openbao.go`,
    and the GCP adapter (`unnamed/part_002`) — locator builders, payload
    extraction, change detection.

Conventions:
  * Go `[]byte` is `List Nat` (each entry a byte value).
  * Go `map[string]string` request labels are association lists looked up by
    first match; Go maps have unique keys so this is faithful.
  * Go `map[string]interface{}` values produced by `json.Unmarshal` are
    association lists of `JValue`; the list order stands for one possible Go
    map iteration order (Go randomizes it; the code reads "the first value in
    iteration order", which the spec acknowledges).
  * `encoding/json.Unmarshal` into `map[string]interface{}` is an external
    library call; a payload is therefore carried together with its parse
    result (`Payload`): `parsed = some fields` iff unmarshalling into a map
    succeeds, `none` otherwise.  `jnum` carries the Go `%v` rendering of the
    underlying float64, whose decimal formatting is not re-modelled.
  * `crypto/sha256` + `fmt.Sprintf "%x"` are implemented in full
    (`sha256hex`), operating on byte lists, words as `Nat` mod 2^32.
-/

/-- Bytes of a byte slice are plain naturals below 256. -/
abbrev Bytes := List Nat

/-- UTF-8 encoding of one character, as Go produces for `[]byte(string)`. -/
def utf8Char (c : Char) : Bytes :=
  let n := c.toNat
  if n < 128 then [n]
  else if n < 2048 then [192 + n / 64, 128 + n % 64]
  else if n < 65536 then [224 + n / 4096, 128 + (n / 64) % 64, 128 + n % 64]
  else [240 + n / 262144, 128 + (n / 4096) % 64, 128 + (n / 64) % 64, 128 + n % 64]

/-- Go `[]byte(s)`: the UTF-8 bytes of a string. -/
def strBytes (s : String) : Bytes :=
  (s.toList.map utf8Char).flatten

/-! SHA-256 (`crypto/sha256.Sum256`), words kept as `Nat` reduced mod 2^32. -/

/-- Reduce to a 32-bit word. -/
def w32 (n : Nat) : Nat := n % 4294967296

/-- Right rotation of a 32-bit word by `k` (for `x < 2^32`, `k ≤ 32`). -/
def rotWord (x k : Nat) : Nat := x / 2 ^ k + x % 2 ^ k * 2 ^ (32 - k)

/-- Logical right shift of a 32-bit word. -/
def shiftWord (x k : Nat) : Nat := x / 2 ^ k

/-- Bitwise complement of a 32-bit word. -/
def not32 (x : Nat) : Nat := 4294967295 ^^^ x

/-- SHA-256 Ch function. -/
def choose32 (e f g : Nat) : Nat := (e &&& f) ^^^ (not32 e &&& g)

/-- SHA-256 Maj function. -/
def majority32 (a b c : Nat) : Nat := (a &&& b) ^^^ (a &&& c) ^^^ (b &&& c)

/-- SHA-256 big Sigma0. -/
def sigmaBig0 (x : Nat) : Nat := rotWord x 2 ^^^ rotWord x 13 ^^^ rotWord x 22

/-- SHA-256 big Sigma1. -/
def sigmaBig1 (x : Nat) : Nat := rotWord x 6 ^^^ rotWord x 11 ^^^ rotWord x 25

/-- SHA-256 small sigma0. -/
def sigmaSmall0 (x : Nat) : Nat := rotWord x 7 ^^^ rotWord x 18 ^^^ shiftWord x 3

/-- SHA-256 small sigma1. -/
def sigmaSmall1 (x : Nat) : Nat := rotWord x 17 ^^^ rotWord x 19 ^^^ shiftWord x 10

/-- The 64 SHA-256 round constants (FIPS 180-4, written in decimal). -/
def sha256K : List Nat :=
  [1116352408, 1899447441, 3049323471, 3921009573, 961987163,
   1508970993, 2453635748, 2870763221, 3624381080, 310598401,
   607225278, 1426881987, 1925078388, 2162078206, 2614888103,
   3248222580, 3835390401, 4022224774, 264347078, 604807628,
   770255983, 1249150122, 1555081692, 1996064986, 2554220882,
   2821834349, 2952996808, 3210313671, 3336571891, 3584528711,
   113926993, 338241895, 666307205, 773529912, 1294757372,
   1396182291, 1695183700, 1986661051, 2177026350, 2456956037,
   2730485921, 2820302411, 3259730800, 3345764771, 3516065817,
   3600352804, 4094571909, 275423344, 430227734, 506948616,
   659060556, 883997877, 958139571, 1322822218, 1537002063,
   1747873779, 1955562222, 2024104815, 2227730452, 2361852424,
   2428436474, 2756734187, 3204031479, 3329325298]

/-- Big-endian bytes of a 64-bit length value. -/
def be64 (n : Nat) : Bytes :=
  [n / 2 ^ 56 % 256, n / 2 ^ 48 % 256, n / 2 ^ 40 % 256, n / 2 ^ 32 % 256,
   n / 2 ^ 24 % 256, n / 2 ^ 16 % 256, n / 2 ^ 8 % 256, n % 256]

/-- SHA-256 padding: append 0x80, zero bytes to 56 mod 64, then the bit length. -/
def padMessage (msg : Bytes) : Bytes :=
  let L := msg.length
  let k := (119 - L % 64) % 64
  msg ++ [128] ++ List.replicate k 0 ++ be64 (8 * L)

/-- Pack bytes into big-endian 32-bit words. -/
def bytesToWords : Bytes → List Nat
  | a :: b :: c :: d :: rest => (((a * 256 + b) * 256 + c) * 256 + d) :: bytesToWords rest
  | _ => []

/-- Split a list into chunks of 64 elements. -/
def chunks64 : Bytes → List Bytes
  | [] => []
  | a :: t => (a :: t).take 64 :: chunks64 ((a :: t).drop 64)
termination_by l => l.length
decreasing_by
  simp only [List.length_drop, List.length_cons]
  omega

/-- One new word of the message schedule given the reversed schedule so far. -/
def schedWord (rw : List Nat) : Nat :=
  w32 (sigmaSmall1 (rw.getD 1 0) + rw.getD 6 0 + sigmaSmall0 (rw.getD 14 0) + rw.getD 15 0)

/-- Extend the reversed message schedule by `n` words. -/
def buildSched (rw : List Nat) : Nat → List Nat
  | 0 => rw
  | n + 1 => buildSched (schedWord rw :: rw) n

/-- Working state of the SHA-256 compression function. -/
structure Hash8 where
  a : Nat
  b : Nat
  c : Nat
  d : Nat
  e : Nat
  f : Nat
  g : Nat
  h : Nat

/-- One round of the SHA-256 compression function. -/
def compressStep (st : Hash8) (kw : Nat × Nat) : Hash8 :=
  let t1 := w32 (st.h + sigmaBig1 st.e + choose32 st.e st.f st.g + kw.1 + kw.2)
  let t2 := w32 (sigmaBig0 st.a + majority32 st.a st.b st.c)
  ⟨w32 (t1 + t2), st.a, st.b, st.c, w32 (st.d + t1), st.e, st.f, st.g⟩

/-- Process one 64-byte block, updating the eight hash words. -/
def sha256Block (hv : Hash8) (block : Bytes) : Hash8 :=
  let w := (buildSched (bytesToWords block).reverse 48).reverse
  let st := (sha256K.zip w).foldl (fun s kw => compressStep s kw.swap) hv
  ⟨w32 (hv.a + st.a), w32 (hv.b + st.b), w32 (hv.c + st.c), w32 (hv.d + st.d),
   w32 (hv.e + st.e), w32 (hv.f + st.f), w32 (hv.g + st.g), w32 (hv.h + st.h)⟩

/-- Big-endian bytes of one 32-bit word. -/
def wordBytes (n : Nat) : Bytes :=
  [n / 2 ^ 24 % 256, n / 2 ^ 16 % 256, n / 2 ^ 8 % 256, n % 256]

/-- SHA-256 digest (32 bytes) of a byte list, as `crypto/sha256.Sum256`. -/
def sha256 (msg : Bytes) : Bytes :=
  let init : Hash8 :=
    ⟨1779033703, 3144134277, 1013904242, 2773480762,
     1359893119, 2600822924, 528734635, 1541459225⟩
  let hv := (chunks64 (padMessage msg)).foldl sha256Block init
  wordBytes hv.a ++ wordBytes hv.b ++ wordBytes hv.c ++ wordBytes hv.d ++
    wordBytes hv.e ++ wordBytes hv.f ++ wordBytes hv.g ++ wordBytes hv.h

/-- Lowercase hex digit. -/
def hexDigit (n : Nat) : Char :=
  if n < 10 then Char.ofNat (48 + n) else Char.ofNat (87 + n)

/-- Lowercase hex rendering of bytes, as Go `fmt.Sprintf "%x"` on a digest. -/
def hexString (bs : Bytes) : String :=
  String.mk ((bs.map fun b => [hexDigit (b / 16), hexDigit (b % 16)]).flatten)

/-- Hex-encoded SHA-256 fingerprint, `fmt.Sprintf("%x", sha256.Sum256 v)`. -/
def sha256hex (msg : Bytes) : String := hexString (sha256 msg)

/-! String helpers mirroring the Go standard-library calls used by the code. -/

/-- ASCII lowercase of one character (the label values the code compares are
ASCII; Go `strings.ToLower` restricted to that range). -/
def lowerChar (c : Char) : Char :=
  if 'A' ≤ c ∧ c ≤ 'Z' then Char.ofNat (c.toNat + 32) else c

/-- Lowercase a string, as `strings.ToLower` on ASCII input. -/
def lowerStr (s : String) : String := String.mk (s.toList.map lowerChar)

/-- Whether `pat` is a leading segment of `l`. -/
def takesLead : List Char → List Char → Bool
  | [], _ => true
  | _ :: _, [] => false
  | p :: ps, c :: cs => p == c && takesLead ps cs

/-- Whether `pat` occurs contiguously inside `l`. -/
def hasSub (pat : List Char) : List Char → Bool
  | [] => pat.isEmpty
  | c :: rest => takesLead pat (c :: rest) || hasSub pat rest

/-- Go `strings.Contains s pat`. -/
def strContains (s pat : String) : Bool := hasSub pat.toList s.toList

/-- First-match association-list lookup, standing in for a Go map read. -/
def lookupL (m : List (String × String)) (k : String) : Option String :=
  match m with
  | [] => none
  | (k1, v) :: rest => if k1 = k then some v else lookupL rest k

/-- An inbound fetch request (`secrets.Request`). -/
structure Request where
  secretName : String
  serviceName : String
  secretLabels : List (String × String)
deriving DecidableEq

/-! JSON values as produced by `json.Unmarshal` into `map[string]interface{}`. -/

/-- A decoded JSON value. `jnum` carries the Go `%v` rendering of the float64
the decoder produces, since float formatting is not re-modelled. -/
inductive JValue where
  | jstr (s : String)
  | jbool (b : Bool)
  | jnull
  | jnum (rendering : String)
  | jarr (elems : List JValue)
  | jobj (fields : List (String × JValue))

/-- Association lookup in a decoded JSON object. -/
def lookupJ (m : List (String × JValue)) (k : String) : Option JValue :=
  match m with
  | [] => none
  | (k1, v) :: rest => if k1 = k then some v else lookupJ rest k

/-- Join strings with single spaces, as `fmt` does inside `%v` of a slice. -/
def joinSpace : List String → String
  | [] => ""
  | [s] => s
  | s :: rest => s ++ " " ++ joinSpace rest

mutual
/-- Go `fmt.Sprintf "%v"` of a decoded JSON value.  Composite values render
in the model's stored field order (Go's `fmt` sorts map keys; no claim
observes a composite rendering, so the order of fields is left as stored). -/
def gostr : JValue → String
  | .jstr s => s
  | .jbool true => "true"
  | .jbool false => "false"
  | .jnull => "<nil>"
  | .jnum r => r
  | .jarr es => "[" ++ joinSpace (gostrElems es) ++ "]"
  | .jobj fs => "map[" ++ joinSpace (gostrFields fs) ++ "]"

/-- Renderings of the elements of a JSON array. -/
def gostrElems : List JValue → List String
  | [] => []
  | v :: rest => gostr v :: gostrElems rest

/-- Renderings `key:value` of the fields of a JSON object. -/
def gostrFields : List (String × JValue) → List String
  | [] => []
  | (k, v) :: rest => (k ++ ":" ++ gostr v) :: gostrFields rest
end

/-- Go `%v` of a `[]string` of keys, as in the AWS missing-field error. -/
def renderKeys (data : List (String × JValue)) : String :=
  "[" ++ joinSpace (data.map (·.1)) ++ "]"

/-- A backend payload together with the result of `json.Unmarshal` into a
`map[string]interface{}`: `parsed = some fields` iff that unmarshal succeeds
(the payload is a JSON object), with `fields` in one Go iteration order. -/
structure Payload where
  text : String
  parsed : Option (List (String × JValue))

/-- The ordered default field names every extractor tries. -/
def defaultFields : List String := ["value", "password", "secret", "data"]

/-- First default field present in the object, in the fixed order. -/
def findDefaultField (data : List (String × JValue)) : Option JValue :=
  match lookupJ data "value" with
  | some v => some v
  | none => match lookupJ data "password" with
    | some v => some v
    | none => match lookupJ data "secret" with
      | some v => some v
      | none => lookupJ data "data"

/-- First string-typed value in iteration order (`value.(string)` filter). -/
def firstStringValue : List (String × JValue) → Option String
  | [] => none
  | (_, .jstr s) :: _ => some s
  | _ :: rest => firstStringValue rest

/-! Extraction, per adapter. -/

/-- AWS `extractSecretValueByField` (providers/aws.go). -/
def awsExtractSecretValueByField (p : Payload) (field : String) : Except String String :=
  match p.parsed with
  | some data =>
    match lookupJ data field with
    | some v => .ok (gostr v)
    | none => .error ("field " ++ field ++ " not found in secret; available fields: " ++ renderKeys data)
  | none =>
    if field ≠ "value" then .error ("field " ++ field ++ " not found in non-JSON secret")
    else .ok p.text

/-- AWS `extractSecretValue` (providers/aws.go). -/
def awsExtractSecretValue (p : Payload) (labels : List (String × String)) : Except String String :=
  match lookupL labels "aws_field" with
  | some f => awsExtractSecretValueByField p f
  | none =>
    match p.parsed with
    | some data =>
      match findDefaultField data with
      | some v => .ok (gostr v)
      | none =>
        match firstStringValue data with
        | some s => .ok s
        | none => .error "no suitable secret value found in JSON"
    | none => .ok p.text

/-- Azure `extractSecretValueByField` (providers/azure.go): requires a JSON
object; it has no verbatim fallback for the field `"value"`. -/
def azureExtractSecretValueByField (p : Payload) (field : String) : Except String String :=
  match p.parsed with
  | none => .error ("cannot extract field '" ++ field ++ "' because the secret is not a valid JSON object")
  | some data =>
    match lookupJ data field with
    | some v => .ok (gostr v)
    | none => .error ("field '" ++ field ++ "' not found in the JSON secret")

/-- Azure `extractSecretValue` (providers/azure.go). -/
def azureExtractSecretValue (p : Payload) (labels : List (String × String)) : Except String String :=
  match lookupL labels "azure_field" with
  | some f => azureExtractSecretValueByField p f
  | none =>
    match p.parsed with
    | some data =>
      match findDefaultField data with
      | some v => .ok (gostr v)
      | none =>
        match firstStringValue data with
        | some s => .ok s
        | none => .error "secret is a JSON object but no suitable value could be extracted"
    | none => .ok p.text

/-- GCP `extractSecretValueByField` (unnamed/part_002). -/
def gcpExtractSecretValueByField (p : Payload) (field : String) : Except String String :=
  match p.parsed with
  | some data =>
    match lookupJ data field with
    | some v => .ok (gostr v)
    | none => .error ("field " ++ field ++ " not found in secret")
  | none =>
    if field ≠ "value" then .error ("field " ++ field ++ " not found in non-JSON secret")
    else .ok p.text

/-- GCP `extractSecretValue` (unnamed/part_002): when the JSON object holds
none of the default fields the raw payload text is returned; there is no
first-string-value fallback and no "no suitable value" error. -/
def gcpExtractSecretValue (p : Payload) (labels : List (String × String)) : Except String String :=
  match lookupL labels "gcp_field" with
  | some f => gcpExtractSecretValueByField p f
  | none =>
    match p.parsed with
    | some data =>
      match findDefaultField data with
      | some v => .ok (gostr v)
      | none => .ok p.text
    | none => .ok p.text

/-! Locator builders and sanitizers. -/

/-- ASCII letter test as the Go rune-range comparisons spell it. -/
def isLetterChar (c : Char) : Bool :=
  ('a' ≤ c && c ≤ 'z') || ('A' ≤ c && c ≤ 'Z')

/-- ASCII digit test. -/
def isDigitChar (c : Char) : Bool := '0' ≤ c && c ≤ '9'

/-- OpenBao adapter `buildSecretPath` (providers/openbao.go), parameterized by
the configured mount path. -/
def openbaoBuildSecretPath (mountPath : String) (req : Request) : String :=
  match lookupL req.secretLabels "openbao_path" with
  | some customPath =>
    if mountPath = "secret" then mountPath ++ "/data/" ++ customPath
    else mountPath ++ "/" ++ customPath
  | none =>
    if mountPath = "secret" then
      if req.serviceName ≠ "" then
        mountPath ++ "/data/" ++ req.serviceName ++ "/" ++ req.secretName
      else mountPath ++ "/data/" ++ req.secretName
    else
      if req.serviceName ≠ "" then
        mountPath ++ "/" ++ req.serviceName ++ "/" ++ req.secretName
      else mountPath ++ "/" ++ req.secretName

/-- Driver `buildOpenBaoSecretPath` (driver.go): always uses the
`secret/data/` prefix, without consulting the adapter's mount path. -/
def buildOpenBaoSecretPath (req : Request) : String :=
  match lookupL req.secretLabels "openbao_path" with
  | some customPath => "secret/data/" ++ customPath
  | none =>
    if req.serviceName ≠ "" then
      "secret/data/" ++ req.serviceName ++ "/" ++ req.secretName
    else "secret/data/" ++ req.secretName

/-- Driver `buildVaultSecretPath` (driver.go). -/
def buildVaultSecretPath (req : Request) : String :=
  match lookupL req.secretLabels "vault_path" with
  | some customPath => "secret/data/" ++ customPath
  | none =>
    if req.serviceName ≠ "" then
      "secret/data/" ++ req.serviceName ++ "/" ++ req.secretName
    else "secret/data/" ++ req.secretName

/-- Driver `buildAWSSecretName` (driver.go). -/
def buildAWSSecretName (req : Request) : String :=
  match lookupL req.secretLabels "aws_secret_name" with
  | some customName => customName
  | none =>
    if req.serviceName ≠ "" then req.serviceName ++ "/" ++ req.secretName
    else req.secretName

/-- A rune allowed after the first position of a GCP secret name. -/
def gcpAllowedTail (c : Char) : Bool :=
  isLetterChar c || isDigitChar c || c = '_' || c = '-'

/-- Driver `normalizeGCPSecretName` (driver.go): the first rune is kept only
when it is a letter and is otherwise replaced by `s`; later disallowed runes
become `_`. -/
def normalizeGCPSecretName (secretName : String) : String :=
  match secretName.toList with
  | [] => "s"
  | c :: rest =>
    String.mk ((if isLetterChar c then [c] else ['s']) ++
      rest.map fun ch => if gcpAllowedTail ch then ch else '_')

/-- Driver `buildGCPSecretName` (driver.go). -/
def buildGCPSecretName (req : Request) : String :=
  match lookupL req.secretLabels "gcp_secret_name" with
  | some customName => customName
  | none =>
    let secretName :=
      if req.serviceName ≠ "" then req.serviceName ++ "-" ++ req.secretName
      else req.secretName
    normalizeGCPSecretName secretName

/-- One rune of the Key-Vault sanitization: disallowed runes become `-`. -/
def azureSanChar (c : Char) : Char :=
  if isLetterChar c || isDigitChar c || c = '-' then c else '-'

/-- Collapse adjacent `-` pairs; this is the fixpoint of the source's
`for strings.Contains(result, "--") { result = ReplaceAll(result, "--", "-") }`
loop, which terminates exactly when no two dashes are adjacent. -/
def collapseDashes : List Char → List Char
  | [] => []
  | [c] => [c]
  | a :: b :: rest =>
    if a = '-' ∧ b = '-' then collapseDashes (b :: rest)
    else a :: collapseDashes (b :: rest)

/-- Go `strings.Trim s "-"`: drop leading and trailing dashes. -/
def trimDashes (l : List Char) : List Char :=
  ((l.dropWhile (· = '-')).reverse.dropWhile (· = '-')).reverse

/-- The shared Key-Vault sanitization pipeline: replace, collapse, trim. -/
def azureSanitize (s : String) : String :=
  String.mk (trimDashes (collapseDashes (s.toList.map azureSanChar)))

/-- Default Key-Vault name composed from service and secret name. -/
def azureComposedName (req : Request) : String :=
  if req.serviceName ≠ "" then req.serviceName ++ "-" ++ req.secretName
  else req.secretName

/-- Azure adapter `buildSecretName` (providers/azure.go): empty results fall
back to `default-secret`; nothing special happens for digit-leading names. -/
def azureBuildSecretName (req : Request) : String :=
  match lookupL req.secretLabels "azure_secret_name" with
  | some customName => customName
  | none =>
    let result := azureSanitize (azureComposedName req)
    if result = "" then "default-secret" else result

/-- Driver `buildAzureSecretName` (driver.go): prepends `secret-` when the
sanitized result is empty or begins with a digit (`result[0]` in Go, here the
head character). -/
def buildAzureSecretName (req : Request) : String :=
  match lookupL req.secretLabels "azure_secret_name" with
  | some customName => customName
  | none =>
    let result := azureSanitize (azureComposedName req)
    if result = "" ∨ isDigitChar (result.toList.headD ' ') = true then
      "secret-" ++ result
    else result

/-- Driver `shouldNotReuse` (driver.go): the only label consulted is
`vault_reuse`, and its presence short-circuits the name heuristic. -/
def shouldNotReuse (req : Request) : Bool :=
  match lookupL req.secretLabels "vault_reuse" with
  | some reuse => lowerStr reuse == "false"
  | none =>
    strContains req.secretName "cert" || strContains req.secretName "token" ||
      strContains req.secretName "dynamic"

/-! The tracking registry (`secretTracker` in driver.go). -/

/-- A tracking record (`providers.SecretInfo`, reconstructed from its uses in
driver.go: the defining file is not under src/). -/
structure SecretInfo where
  dockerSecretName : String
  secretPath : String
  secretField : String
  serviceNames : List String
  lastHash : String
  lastUpdated : Nat
  provider : String
deriving DecidableEq

/-- The registry: association list keyed by orchestrator-secret name. -/
abbrev Tracker := List (String × SecretInfo)

/-- Registry lookup. -/
def lookupInfo (t : Tracker) (k : String) : Option SecretInfo :=
  match t with
  | [] => none
  | (k1, v) :: rest => if k1 = k then some v else lookupInfo rest k

/-- Replace the record stored under key `k`. -/
def updateInfo : Tracker → String → SecretInfo → Tracker
  | [], _, _ => []
  | (k1, v1) :: rest, k, v =>
    if k1 = k then (k, v) :: updateInfo rest k v
    else (k1, v1) :: updateInfo rest k v

/-- Driver `trackSecret`, field selection: the provider's `<p>_field` label,
defaulting to `value` (a Go map read of a missing key yields `""`). -/
def trackerSecretField (providerName : String) (labels : List (String × String)) : String :=
  let f :=
    match providerName with
    | "vault" => (lookupL labels "vault_field").getD ""
    | "aws" => (lookupL labels "aws_field").getD ""
    | "gcp" => (lookupL labels "gcp_field").getD ""
    | "azure" => (lookupL labels "azure_field").getD ""
    | "openbao" => (lookupL labels "openbao_field").getD ""
    | _ => ""
  if f = "" then "value" else f

/-- Driver `trackSecret`, locator selection per provider. -/
def trackerSecretPath (providerName : String) (req : Request) : String :=
  match providerName with
  | "vault" => buildVaultSecretPath req
  | "aws" => buildAWSSecretName req
  | "gcp" => buildGCPSecretName req
  | "azure" => buildAzureSecretName req
  | "openbao" => buildOpenBaoSecretPath req
  | _ => req.secretName

/-- Driver `trackSecret` (driver.go): upsert of the tracking registry.  A new
record starts with `ServiceNames = [req.ServiceName]` with no emptiness
check; the update path appends the service name only when it is absent and
non-empty, and refreshes only the hash and timestamp. -/
def trackSecret (providerName : String) (now : Nat) (tracker : Tracker)
    (req : Request) (value : Bytes) : Tracker :=
  let hash := sha256hex value
  match lookupInfo tracker req.secretName with
  | some existing =>
    let names :=
      if existing.serviceNames.contains req.serviceName ∨ req.serviceName = "" then
        existing.serviceNames
      else existing.serviceNames ++ [req.serviceName]
    updateInfo tracker req.secretName
      { existing with serviceNames := names, lastHash := hash, lastUpdated := now }
  | none =>
    tracker ++ [(req.secretName,
      { dockerSecretName := req.secretName
        secretPath := trackerSecretPath providerName req
        secretField := trackerSecretField providerName req.secretLabels
        serviceNames := [req.serviceName]
        lastHash := hash
        lastUpdated := now
        provider := providerName })]

/-! Change detection (providers/openbao.go `CheckSecretChanged` and driver.go
`hasSecretChanged`). -/

/-- The OpenBao backend as seen through `Logical().Read`: paths whose read
call errors, and the stored secrets (path to decoded `Data` map). -/
structure Backend where
  readErr : List String
  secrets : List (String × List (String × JValue))

/-- Association lookup among the stored secrets. -/
def lookupStore : List (String × List (String × JValue)) → String → Option (List (String × JValue))
  | [], _ => none
  | (k, v) :: rest, p => if k = p then some v else lookupStore rest p

/-- Backend read at a path. -/
def backendRead (b : Backend) (path : String) : Option (List (String × JValue)) :=
  lookupStore b.secrets path

/-- The KV-v2 unwrap in `CheckSecretChanged`: if `Data` has a `data` child the
code type-asserts it to a map (`none` marks the assertion panic on a
non-object child, outside the modelled domain); otherwise `Data` itself. -/
def openbaoUnwrap (m : List (String × JValue)) : Option (List (String × JValue)) :=
  match lookupJ m "data" with
  | some (.jobj inner) => some inner
  | some _ => none
  | none => some m

/-- OpenBao `CheckSecretChanged`: Go returns the pair `(bool, error)`, here
`(Bool × Option String)`; the outer `Option` is `none` only for the
type-assertion panic case. -/
def openbaoCheckSecretChanged (b : Backend) (info : SecretInfo) :
    Option (Bool × Option String) :=
  if b.readErr.contains info.secretPath then
    some (false, some "error reading secret from OpenBao")
  else
    match backendRead b info.secretPath with
    | none => some (false, some ("secret not found at path: " ++ info.secretPath))
    | some m =>
      match openbaoUnwrap m with
      | none => none
      | some data =>
        match lookupJ data info.secretField with
        | none => some (false, some ("field " ++ info.secretField ++ " not found in secret"))
        | some v =>
          some (sha256hex (strBytes (gostr v)) != info.lastHash, none)

/-- Driver `hasSecretChanged`: a pure read of the provider's answer — it never
writes the tracking record; an error is logged and reported as `false`. -/
def hasSecretChanged (b : Backend) (info : SecretInfo) : Option Bool :=
  match openbaoCheckSecretChanged b info with
  | some (changed, none) => some changed
  | some (_, some _) => some false
  | none => none

/-! The orchestrator-mutation routine (driver.go `updateDockerSecret`,
`updateServicesSecretReference`, `rotateSecret`). -/

/-- An orchestrator-secret object (`swarm.Secret`). -/
structure DockerSecret where
  id : String
  name : String
  labels : List (String × String)
  payload : Bytes
deriving DecidableEq

/-- A secret reference inside a service spec (`swarm.SecretReference`). -/
structure SecretRef where
  file : String
  secretID : String
  secretName : String
deriving DecidableEq

/-- A swarm service, reduced to the parts the rotation engine touches. -/
structure SwarmService where
  id : String
  name : String
  labels : List (String × String)
  secretRefs : List SecretRef
deriving DecidableEq

/-- Orchestrator state: the secret objects and the services. -/
structure DockerState where
  secrets : List DockerSecret
  services : List SwarmService
deriving DecidableEq

/-- Outcomes of the Docker API calls the rotation path makes, injected so the
error branches of the code are reachable in the model. -/
structure RotateEnv where
  listOk : Bool
  svcListOk : Bool
  createOk : Bool
  createId : String
  updateFails : List String
  removeNewOk : Bool
  removeOldOk : Bool
  nowNano : Nat
  nowUnix : Nat

/-- Set (add or overwrite) one label on a label map. -/
def setLabel (ls : List (String × String)) (k v : String) : List (String × String) :=
  if (lookupL ls k).isSome then ls.map (fun e => if e.1 = k then (k, v) else e)
  else ls ++ [(k, v)]

/-- Rewrite the matching references of one service and report whether any
reference matched (`needsUpdate`). -/
def rewriteRefs (oldName newName newID : String) (refs : List SecretRef) :
    List SecretRef × Bool :=
  (refs.map fun r =>
      if r.secretName = oldName then ⟨r.file, newID, newName⟩ else r,
    refs.any fun r => r.secretName = oldName)

/-- The per-service loop of `updateServicesSecretReference`: services are
visited in order, an update failure returns at once, so earlier updates
persist and later services stay untouched. -/
def updateServicesLoop (env : RotateEnv) (oldName newName newID : String) :
    List SwarmService → List SwarmService × Option String
  | [] => ([], none)
  | s :: rest =>
    let (refs, needsUpdate) := rewriteRefs oldName newName newID s.secretRefs
    if needsUpdate then
      if env.updateFails.contains s.id then
        (s :: rest, some ("failed to update service " ++ s.name))
      else
        let s' := { s with
          secretRefs := refs
          labels := setLabel s.labels "vault.secret.rotated" (toString env.nowUnix) }
        let (rest', e) := updateServicesLoop env oldName newName newID rest
        (s' :: rest', e)
    else
      let (rest', e) := updateServicesLoop env oldName newName newID rest
      (s :: rest', e)

/-- Driver `updateServicesSecretReference`. -/
def updateServicesSecretReference (env : RotateEnv) (oldName newName newID : String)
    (services : List SwarmService) : List SwarmService × Option String :=
  if env.svcListOk then updateServicesLoop env oldName newName newID services
  else (services, some "failed to list services")

/-- First secret object of the list with the given name. -/
def findSecretByName (secrets : List DockerSecret) (name : String) : Option DockerSecret :=
  match secrets with
  | [] => none
  | s :: rest => if s.name = name then some s else findSecretByName rest name

/-- Go `SecretRemove`: drop the object with the given identifier. -/
def removeSecretById (secrets : List DockerSecret) (id : String) : List DockerSecret :=
  secrets.filter fun s => s.id ≠ id

/-- Driver `updateDockerSecret`: create the new versioned object, rewire the
services, roll back the new object (best effort) when any service update
fails, and delete the old object (best effort, non-fatal) on success. -/
def updateDockerSecret (env : RotateEnv) (st : DockerState) (secretName : String)
    (newValue : Bytes) : DockerState × Option String :=
  if ¬env.listOk then (st, some "failed to list secrets")
  else
    match findSecretByName st.secrets secretName with
    | none => (st, some ("secret " ++ secretName ++ " not found"))
    | some existingSecret =>
      if ¬env.createOk then (st, some "failed to create new secret version")
      else
        let newSecretName := secretName ++ "-" ++ toString env.nowNano
        let newSecret : DockerSecret :=
          ⟨env.createId, newSecretName, existingSecret.labels, newValue⟩
        let secrets1 := st.secrets ++ [newSecret]
        let (svcs, uerr) :=
          updateServicesSecretReference env secretName newSecretName env.createId st.services
        match uerr with
        | some e =>
          let secrets2 :=
            if env.removeNewOk then removeSecretById secrets1 env.createId else secrets1
          (⟨secrets2, svcs⟩, some ("failed to update services to use new secret: " ++ e))
        | none =>
          let secrets2 :=
            if env.removeOldOk then removeSecretById secrets1 existingSecret.id else secrets1
          (⟨secrets2, svcs⟩, none)

/-- Driver `rotateSecret` from the point the new value is requested from the
provider: `fetchResult = none` is a provider fetch error; on mutation success
the record's fingerprint and timestamp are refreshed, on failure the record
is returned untouched. -/
def rotateSecret (env : RotateEnv) (st : DockerState) (info : SecretInfo)
    (fetchResult : Option Bytes) (now : Nat) :
    DockerState × SecretInfo × Option String :=
  match fetchResult with
  | none => (st, info, some "failed to get updated secret from provider")
  | some newValue =>
    match updateDockerSecret env st info.dockerSecretName newValue with
    | (st', some e) => (st', info, some ("failed to update docker secret: " ++ e))
    | (st', none) =>
      (st', { info with lastHash := sha256hex newValue, lastUpdated := now }, none)

/-! Helper lemmas shared by the claim theorems. -/

/-- A secret found by name is a member of the list searched. -/
theorem findSecretByName_mem {l : List DockerSecret} {n : String} {s : DockerSecret}
    (h : findSecretByName l n = some s) : s ∈ l := by
  induction l with
  | nil => simp [findSecretByName] at h
  | cons a rest ih =>
    by_cases ha : a.name = n
    · simp [findSecretByName, ha] at h
      simp [h]
    · simp [findSecretByName, ha] at h
      exact List.mem_cons_of_mem _ (ih h)

/-- Updating a present key makes the new record the one looked up. -/
theorem lookupInfo_updateInfo {t : Tracker} {k : String} {x v : SecretInfo}
    (h : lookupInfo t k = some x) : lookupInfo (updateInfo t k v) k = some v := by
  induction t with
  | nil => simp [lookupInfo] at h
  | cons a rest ih =>
    obtain ⟨a1, a2⟩ := a
    by_cases ha : a1 = k
    · subst ha
      simp [lookupInfo, updateInfo]
    · simp only [lookupInfo, updateInfo, ha, if_false, if_neg ha] at h ⊢
      exact ih h

/-- C3 counterexample: with the explicit reuse label set to `"true"` and a
secret name containing `cert`, the claim predicts `do_not_reuse = true`, but
`shouldNotReuse` short-circuits on the present label and returns `false`. -/
theorem shouldNotReuse_label_true_cert_cex :
    shouldNotReuse ⟨"my-cert", "", [("vault_reuse", "true")]⟩ = false ∧
      strContains "my-cert" "cert" = true := by
  exact ⟨rfl, rfl⟩

/-- C3 (amended): `do_not_reuse` is true iff either the `vault_reuse` label is
present with case-insensitive value `false`, or that label is absent and the
secret name contains `cert`, `token` or `dynamic`; a present label with any
other value forces `false` regardless of the name, and no other provider's
reuse key is consulted. -/
theorem shouldNotReuse_characterization (req : Request) :
    shouldNotReuse req = true ↔
      ((∃ r, lookupL req.secretLabels "vault_reuse" = some r ∧ lowerStr r = "false") ∨
       (lookupL req.secretLabels "vault_reuse" = none ∧
         (strContains req.secretName "cert" = true ∨
          strContains req.secretName "token" = true ∨
          strContains req.secretName "dynamic" = true))) := by
  cases h : lookupL req.secretLabels "vault_reuse" with
  | some r => simp [shouldNotReuse, h, beq_iff_eq]
  | none => simp [shouldNotReuse, h, Bool.or_eq_true, or_assoc]

/-- C4: the very first tracked fetch with an empty service name stores the
record with `ServiceNames = [""]` — the insert path of `trackSecret` has no
emptiness guard, violating invariant I3 that the update path enforces. -/
theorem trackSecret_first_fetch_empty_consumer :
    ∃ rec, lookupInfo (trackSecret "aws" 0 [] ⟨"db", "", []⟩ []) "db" = some rec ∧
      rec.serviceNames = [""] := by
  exact ⟨_, rfl, rfl⟩

/-- C9 counterexample: with a non-default mount path `kv` the adapter reads
`kv/s` while the driver records `secret/data/s` for the same request, so the
recorded locator differs from the path the adapter queries. -/
theorem openbaoPath_nondefault_mount_cex :
    openbaoBuildSecretPath "kv" ⟨"s", "", []⟩ = "kv/s" ∧
      buildOpenBaoSecretPath ⟨"s", "", []⟩ = "secret/data/s" ∧
      ("kv/s" : String) ≠ "secret/data/s" := by
  refine ⟨rfl, rfl, by decide⟩

/-- C9 (amended): the driver-recorded locator coincides with the path the
OpenBao adapter derives exactly when the adapter's mount path is the KV-v2
default `secret`; the counterexample shows any other mount path breaks the
agreement. -/
theorem openbaoPath_default_mount_agreement (req : Request) :
    openbaoBuildSecretPath "secret" req = buildOpenBaoSecretPath req := by
  cases h : lookupL req.secretLabels "openbao_path" with
  | some c => simp only [openbaoBuildSecretPath, buildOpenBaoSecretPath, h]; rfl
  | none =>
    by_cases hs : req.serviceName = ""
    · simp only [openbaoBuildSecretPath, buildOpenBaoSecretPath, h, hs, ne_eq,
        not_true_eq_false, if_false, if_pos rfl, ite_false]
      rfl
    · simp only [openbaoBuildSecretPath, buildOpenBaoSecretPath, h, ne_eq, hs,
        not_false_eq_true, if_true, if_pos rfl, ite_true]
      rfl

/-- C5 counterexample: the Azure adapter has no verbatim fallback for the
requested field `"value"` on a non-JSON payload — it errors where the claim
requires the payload bytes back. -/
theorem azure_value_nonjson_cex :
    azureExtractSecretValueByField ⟨"plain", none⟩ "value" =
      .error "cannot extract field 'value' because the secret is not a valid JSON object" ∧
    azureExtractSecretValueByField ⟨"plain", none⟩ "value" ≠ .ok "plain" := by
  refine ⟨rfl, ?_⟩
  intro hc
  simp [azureExtractSecretValueByField] at hc

/-- C5 (amended): field-override extraction per adapter.  AWS parses the
payload as a JSON object, returns the selected field coerced to string, and
when the field is missing errors naming the available top-level keys; on a
non-JSON payload it returns the payload verbatim only for the literal field
`"value"` and errors (without naming keys) otherwise.  Azure requires a JSON
object unconditionally: parse failure or a missing field yields an error
that names the field but never the keys, and there is no `"value"`
exception. -/
theorem extractByField_characterization (p : Payload) (field : String) :
    (∀ data v, p.parsed = some data → lookupJ data field = some v →
      awsExtractSecretValueByField p field = .ok (gostr v) ∧
      azureExtractSecretValueByField p field = .ok (gostr v)) ∧
    (∀ data, p.parsed = some data → lookupJ data field = none →
      awsExtractSecretValueByField p field =
        .error ("field " ++ field ++ " not found in secret; available fields: " ++ renderKeys data) ∧
      azureExtractSecretValueByField p field =
        .error ("field '" ++ field ++ "' not found in the JSON secret")) ∧
    (p.parsed = none →
      awsExtractSecretValueByField p "value" = .ok p.text ∧
      (field ≠ "value" →
        awsExtractSecretValueByField p field =
          .error ("field " ++ field ++ " not found in non-JSON secret")) ∧
      azureExtractSecretValueByField p field =
        .error ("cannot extract field '" ++ field ++ "' because the secret is not a valid JSON object")) := by
  refine ⟨?_, ?_, ?_⟩
  · intro data v hp hl
    simp [awsExtractSecretValueByField, azureExtractSecretValueByField, hp, hl]
  · intro data hp hl
    simp [awsExtractSecretValueByField, azureExtractSecretValueByField, hp, hl]
  · intro hp
    refine ⟨?_, ?_, ?_⟩
    · simp [awsExtractSecretValueByField, hp]
    · intro hf
      simp [awsExtractSecretValueByField, hp, hf]
    · simp [azureExtractSecretValueByField, hp]

/-- Witness for the C5 amended theorem at a present JSON field. -/
theorem extractByField_characterization_witness :
    awsExtractSecretValueByField
        ⟨"\x7b\"password\":\"p1\"\x7d", some [("password", JValue.jstr "p1")]⟩ "password" =
      .ok "p1" ∧
    azureExtractSecretValueByField
        ⟨"\x7b\"password\":\"p1\"\x7d", some [("password", JValue.jstr "p1")]⟩ "password" =
      .ok "p1" :=
  (extractByField_characterization
      ⟨"\x7b\"password\":\"p1\"\x7d", some [("password", JValue.jstr "p1")]⟩ "password").1
    [("password", JValue.jstr "p1")] (JValue.jstr "p1") rfl rfl

/-- C6 counterexample: on the JSON object payload with a single string field
`"k":"x"` and none of the default fields present, the GCP adapter returns
the raw payload text, not the first string value `"x"` the claim requires. -/
theorem gcp_no_default_field_cex :
    gcpExtractSecretValue ⟨"\x7b\"k\":\"x\"\x7d", some [("k", JValue.jstr "x")]⟩ [] =
      .ok "\x7b\"k\":\"x\"\x7d" ∧
    (Except.ok "\x7b\"k\":\"x\"\x7d" : Except String String) ≠ .ok "x" := by
  refine ⟨rfl, ?_⟩
  intro hc
  rw [Except.ok.injEq] at hc
  exact absurd hc (by decide)

/-- C6 (amended): default extraction.  AWS and Azure follow the stated
algorithm — non-JSON payloads come back verbatim, the ordered default-field
walk wins when a default field is present, otherwise the first string-typed
value in iteration order, and a JSON object with no string value is an
error.  The GCP adapter deviates: with no default field present it returns
the raw payload text, so it never reaches a first-string fallback or a "no
suitable value" error. -/
theorem extractDefault_characterization (p : Payload) (labels : List (String × String)) :
    (lookupL labels "aws_field" = none → p.parsed = none →
      awsExtractSecretValue p labels = .ok p.text) ∧
    (∀ data v, lookupL labels "aws_field" = none → p.parsed = some data →
      findDefaultField data = some v → awsExtractSecretValue p labels = .ok (gostr v)) ∧
    (∀ data s, lookupL labels "aws_field" = none → p.parsed = some data →
      findDefaultField data = none → firstStringValue data = some s →
      awsExtractSecretValue p labels = .ok s) ∧
    (∀ data, lookupL labels "aws_field" = none → p.parsed = some data →
      findDefaultField data = none → firstStringValue data = none →
      awsExtractSecretValue p labels = .error "no suitable secret value found in JSON") ∧
    (lookupL labels "azure_field" = none → p.parsed = none →
      azureExtractSecretValue p labels = .ok p.text) ∧
    (∀ data v, lookupL labels "azure_field" = none → p.parsed = some data →
      findDefaultField data = some v → azureExtractSecretValue p labels = .ok (gostr v)) ∧
    (∀ data s, lookupL labels "azure_field" = none → p.parsed = some data →
      findDefaultField data = none → firstStringValue data = some s →
      azureExtractSecretValue p labels = .ok s) ∧
    (∀ data, lookupL labels "azure_field" = none → p.parsed = some data →
      findDefaultField data = none → firstStringValue data = none →
      azureExtractSecretValue p labels =
        .error "secret is a JSON object but no suitable value could be extracted") ∧
    (∀ data, lookupL labels "gcp_field" = none → p.parsed = some data →
      findDefaultField data = none → gcpExtractSecretValue p labels = .ok p.text) := by
  refine ⟨?_, ?_, ?_, ?_, ?_, ?_, ?_, ?_, ?_⟩
  · intro hl hp
    simp [awsExtractSecretValue, hl, hp]
  · intro data v hl hp hd
    simp [awsExtractSecretValue, hl, hp, hd]
  · intro data s hl hp hd hs
    simp [awsExtractSecretValue, hl, hp, hd, hs]
  · intro data hl hp hd hs
    simp [awsExtractSecretValue, hl, hp, hd, hs]
  · intro hl hp
    simp [azureExtractSecretValue, hl, hp]
  · intro data v hl hp hd
    simp [azureExtractSecretValue, hl, hp, hd]
  · intro data s hl hp hd hs
    simp [azureExtractSecretValue, hl, hp, hd, hs]
  · intro data hl hp hd hs
    simp [azureExtractSecretValue, hl, hp, hd, hs]
  · intro data hl hp hd
    simp [gcpExtractSecretValue, hl, hp, hd]

/-- Witness for the C6 amended theorem: AWS falls through the default walk to
the first string value of the object. -/
theorem extractDefault_characterization_witness :
    awsExtractSecretValue
        ⟨"\x7b\"num\":42,\"k\":\"x\"\x7d",
          some [("num", JValue.jnum "42"), ("k", JValue.jstr "x")]⟩ [] = .ok "x" :=
  (extractDefault_characterization
      ⟨"\x7b\"num\":42,\"k\":\"x\"\x7d",
        some [("num", JValue.jnum "42"), ("k", JValue.jstr "x")]⟩ []).2.2.1
    [("num", JValue.jnum "42"), ("k", JValue.jstr "x")] "x" rfl rfl rfl rfl

/-- C7 counterexample: `normalizeGCPSecretName` replaces a non-letter first
rune with the letter `s` and drops the original rune, so `"1abc"` maps to
`"sabc"` and not the claim's prepend-and-retain `"s1abc"`. -/
theorem gcpNormalize_first_rune_cex :
    normalizeGCPSecretName "1abc" = "sabc" ∧ ("sabc" : String) ≠ "s1abc" := by
  exact ⟨rfl, by decide⟩

/-- Dropping the replacement on an all-allowed tail is the identity map. -/
theorem mapAllowed_id (l : List Char) (h : l.all gcpAllowedTail = true) :
    (l.map fun ch => if gcpAllowedTail ch then ch else '_') = l := by
  induction l with
  | nil => rfl
  | cons a t ih =>
    simp only [List.all_cons, Bool.and_eq_true] at h
    simp [h.1, ih h.2]

/-- C7 (amended): if the first rune is not a letter it is *replaced* by the
fixed letter `s` (the original rune is dropped), every later disallowed rune
becomes `_`, and a name that starts with a letter and contains only allowed
runes is returned unchanged. -/
theorem gcpNormalize_characterization :
    (∀ (s : String) (c : Char) (rest : List Char), s.toList = c :: rest →
      isLetterChar c = false →
      normalizeGCPSecretName s =
        String.mk ('s' :: rest.map fun ch => if gcpAllowedTail ch then ch else '_')) ∧
    (∀ (s : String) (c : Char) (rest : List Char), s.toList = c :: rest →
      isLetterChar c = true → rest.all gcpAllowedTail = true →
      normalizeGCPSecretName s = s) := by
  constructor
  · intro s c rest h hc
    obtain ⟨d⟩ := s
    have hd : d = c :: rest := h
    subst hd
    simp [normalizeGCPSecretName, hc]
  · intro s c rest h hc hall
    obtain ⟨d⟩ := s
    have hd : d = c :: rest := h
    subst hd
    simp [normalizeGCPSecretName, hc, mapAllowed_id rest hall]

/-- Witness for the C7 amended theorem at the name `_db`. -/
theorem gcpNormalize_characterization_witness :
    normalizeGCPSecretName "_db" =
      String.mk ('s' :: (['d', 'b'].map fun ch => if gcpAllowedTail ch then ch else '_')) :=
  gcpNormalize_characterization.1 "_db" '_' ['d', 'b'] rfl rfl

/-- C8 counterexample: for the digit-leading composed name `9lives` the
driver records `secret-9lives` while the sanitization rule (the adapter's
`buildSecretName`) produces `9lives`, so the recorded locator disagrees with
the claimed rule. -/
theorem azureName_digit_cex :
    buildAzureSecretName ⟨"9lives", "", []⟩ = "secret-9lives" ∧
    azureBuildSecretName ⟨"9lives", "", []⟩ = "9lives" ∧
    ("secret-9lives" : String) ≠ "9lives" := by
  exact ⟨rfl, rfl, by decide⟩

/-- C8 (amended): the replace/collapse/trim sanitization with an emptiness
fallback is the adapter's rule (fallback `default-secret`), and the given
example yields `svc-my-secret` under both the driver and the adapter; the
driver additionally prepends `secret-` when the sanitized result is empty or
digit-leading, so its recorded locator agrees with the adapter exactly on
non-empty, non-digit-leading results. -/
theorem azureName_agreement :
    (∀ req : Request, lookupL req.secretLabels "azure_secret_name" = none →
      azureSanitize (azureComposedName req) ≠ "" →
      isDigitChar ((azureSanitize (azureComposedName req)).toList.headD ' ') = false →
      buildAzureSecretName req = azureBuildSecretName req) ∧
    buildAzureSecretName ⟨"my_secret!", "svc", []⟩ = "svc-my-secret" ∧
    azureBuildSecretName ⟨"my_secret!", "svc", []⟩ = "svc-my-secret" := by
  refine ⟨?_, rfl, rfl⟩
  intro req hlab hne hd
  have hcond : ¬(azureSanitize (azureComposedName req) = "" ∨
      isDigitChar ((azureSanitize (azureComposedName req)).toList.headD ' ') = true) := by
    rintro (h | h)
    · exact hne h
    · exact absurd h (ne_true_of_eq_false hd)
  simp only [buildAzureSecretName, azureBuildSecretName, hlab, if_neg hcond, if_neg hne]

/-- Witness for the C8 amended theorem at service `app`, secret `db`. -/
theorem azureName_agreement_witness :
    buildAzureSecretName ⟨"db", "app", []⟩ = azureBuildSecretName ⟨"db", "app", []⟩ :=
  azureName_agreement.1 ⟨"db", "app", []⟩ rfl (by decide) (by decide)

/-- C2: `CheckSecretChanged` re-reads the backend at the record's locator,
extracts the record's field, and answers exactly the inequality between the
hex SHA-256 of the extracted bytes and the stored fingerprint; every error
path answers `(false, error)`, and the driver's `hasSecretChanged` maps an
error to `false`.  Both functions are pure readers of the record: no
tracking state is written on either path. -/
theorem checkSecretChanged_fingerprint (b : Backend) (info : SecretInfo) :
    (∀ m data v, b.readErr.contains info.secretPath = false →
      backendRead b info.secretPath = some m →
      openbaoUnwrap m = some data →
      lookupJ data info.secretField = some v →
      openbaoCheckSecretChanged b info =
        some (sha256hex (strBytes (gostr v)) != info.lastHash, none) ∧
      hasSecretChanged b info =
        some (sha256hex (strBytes (gostr v)) != info.lastHash)) ∧
    (∀ r e, openbaoCheckSecretChanged b info = some (r, some e) →
      r = false ∧ hasSecretChanged b info = some false) := by
  constructor
  · intro m data v hre hb hu hl
    simp only [List.elem_eq_mem, decide_eq_false_iff_not] at hre
    have h1 : openbaoCheckSecretChanged b info =
        some (sha256hex (strBytes (gostr v)) != info.lastHash, none) := by
      simp [openbaoCheckSecretChanged, hre, hb, hu, hl]
    exact ⟨h1, by simp [hasSecretChanged, h1]⟩
  · intro r e h
    by_cases hre : info.secretPath ∈ b.readErr
    · have h1 : openbaoCheckSecretChanged b info =
          some (false, some "error reading secret from OpenBao") := by
        simp [openbaoCheckSecretChanged, hre]
      rw [h1] at h
      simp only [Option.some.injEq, Prod.mk.injEq] at h
      exact ⟨h.1.symm, by simp [hasSecretChanged, h1]⟩
    · cases hb : backendRead b info.secretPath with
      | none =>
        have h1 : openbaoCheckSecretChanged b info =
            some (false, some ("secret not found at path: " ++ info.secretPath)) := by
          simp [openbaoCheckSecretChanged, hre, hb]
        rw [h1] at h
        simp only [Option.some.injEq, Prod.mk.injEq] at h
        exact ⟨h.1.symm, by simp [hasSecretChanged, h1]⟩
      | some m =>
        cases hu : openbaoUnwrap m with
        | none =>
          have h1 : openbaoCheckSecretChanged b info = none := by
            simp [openbaoCheckSecretChanged, hre, hb, hu]
          rw [h1] at h
          exact absurd h (by simp)
        | some data =>
          cases hl : lookupJ data info.secretField with
          | none =>
            have h1 : openbaoCheckSecretChanged b info =
                some (false, some ("field " ++ info.secretField ++ " not found in secret")) := by
              simp [openbaoCheckSecretChanged, hre, hb, hu, hl]
            rw [h1] at h
            simp only [Option.some.injEq, Prod.mk.injEq] at h
            exact ⟨h.1.symm, by simp [hasSecretChanged, h1]⟩
          | some v =>
            have h1 : openbaoCheckSecretChanged b info =
                some (sha256hex (strBytes (gostr v)) != info.lastHash, none) := by
              simp [openbaoCheckSecretChanged, hre, hb, hu, hl]
            rw [h1] at h
            simp only [Option.some.injEq, Prod.mk.injEq] at h
            exact absurd h.2 (by simp)

/-- Witness for C2: a KV-v2 secret whose `password` field was rotated away
from the stored fingerprint. -/
theorem checkSecretChanged_fingerprint_witness :
    openbaoCheckSecretChanged
        ⟨[], [("secret/data/app/db", [("data", JValue.jobj [("password", JValue.jstr "p2")])])]⟩
        ⟨"db", "secret/data/app/db", "password", ["app"], "oldfp", 0, "openbao"⟩ =
      some (sha256hex (strBytes (gostr (JValue.jstr "p2"))) != "oldfp", none) ∧
    hasSecretChanged
        ⟨[], [("secret/data/app/db", [("data", JValue.jobj [("password", JValue.jstr "p2")])])]⟩
        ⟨"db", "secret/data/app/db", "password", ["app"], "oldfp", 0, "openbao"⟩ =
      some (sha256hex (strBytes (gostr (JValue.jstr "p2"))) != "oldfp") :=
  (checkSecretChanged_fingerprint
      ⟨[], [("secret/data/app/db", [("data", JValue.jobj [("password", JValue.jstr "p2")])])]⟩
      ⟨"db", "secret/data/app/db", "password", ["app"], "oldfp", 0, "openbao"⟩).1
    [("data", JValue.jobj [("password", JValue.jstr "p2")])]
    [("password", JValue.jstr "p2")] (JValue.jstr "p2") rfl rfl rfl rfl

/-- C10: upserting an already-tracked secret refreshes only the consumers
list, the fingerprint and the timestamp; the recorded Docker name, locator,
field and provider come from `old` untouched, whatever labels the new
request carries. -/
theorem trackSecret_existing_frame (p : String) (now : Nat) (tracker : Tracker)
    (req : Request) (value : Bytes) (old : SecretInfo)
    (h : lookupInfo tracker req.secretName = some old) :
    ∃ newRec,
      lookupInfo (trackSecret p now tracker req value) req.secretName = some newRec ∧
      newRec.dockerSecretName = old.dockerSecretName ∧
      newRec.secretPath = old.secretPath ∧
      newRec.secretField = old.secretField ∧
      newRec.provider = old.provider ∧
      newRec.lastHash = sha256hex value ∧
      newRec.lastUpdated = now ∧
      newRec.serviceNames =
        (if old.serviceNames.contains req.serviceName ∨ req.serviceName = "" then
          old.serviceNames
        else old.serviceNames ++ [req.serviceName]) := by
  have h2 : lookupInfo (trackSecret p now tracker req value) req.secretName =
      some { old with
        serviceNames :=
          if old.serviceNames.contains req.serviceName ∨ req.serviceName = "" then
            old.serviceNames
          else old.serviceNames ++ [req.serviceName]
        lastHash := sha256hex value
        lastUpdated := now } := by
    simp only [trackSecret, h]
    exact lookupInfo_updateInfo h
  exact ⟨_, h2, rfl, rfl, rfl, rfl, rfl, rfl, rfl⟩

/-- Witness for C10: a second fetch with different labels and a new service
leaves the recorded locator, field and provider unchanged. -/
theorem trackSecret_existing_frame_witness :
    ∃ newRec,
      lookupInfo
          (trackSecret "vault" 9
            [("db", ⟨"db", "secret/data/app/db", "password", ["app"], "fp0", 5, "vault"⟩)]
            ⟨"db", "app2", [("vault_path", "elsewhere"), ("vault_field", "other")]⟩
            [1, 2]) "db" = some newRec ∧
      newRec.dockerSecretName = "db" ∧
      newRec.secretPath = "secret/data/app/db" ∧
      newRec.secretField = "password" ∧
      newRec.provider = "vault" ∧
      newRec.lastHash = sha256hex [1, 2] ∧
      newRec.lastUpdated = 9 ∧
      newRec.serviceNames =
        (if ["app"].contains "app2" ∨ "app2" = "" then ["app"] else ["app"] ++ ["app2"]) :=
  trackSecret_existing_frame "vault" 9
    [("db", ⟨"db", "secret/data/app/db", "password", ["app"], "fp0", 5, "vault"⟩)]
    ⟨"db", "app2", [("vault_path", "elsewhere"), ("vault_field", "other")]⟩
    [1, 2] ⟨"db", "secret/data/app/db", "password", ["app"], "fp0", 5, "vault"⟩ rfl

/-- C1: once the new orchestrator-secret object exists, a failing service
update makes the engine delete the new object (best effort), return failure,
keep the old object, and leave the record's fingerprint untouched; the old
object is deleted only on the all-updates-succeed path, where a failing
deletion still ends the rotation successfully with the fingerprint
refreshed and the new object live. -/
theorem rotation_rollback_and_commit
    (env : RotateEnv) (st : DockerState) (info : SecretInfo) (newValue : Bytes)
    (now : Nat) (oldSecret : DockerSecret) (svcs : List SwarmService) (uerr : Option String)
    (hfind : findSecretByName st.secrets info.dockerSecretName = some oldSecret)
    (hlist : env.listOk = true) (hcreate : env.createOk = true)
    (hfresh : oldSecret.id ≠ env.createId)
    (hsu : updateServicesSecretReference env info.dockerSecretName
        (info.dockerSecretName ++ "-" ++ toString env.nowNano) env.createId st.services =
      (svcs, uerr)) :
    (∀ e, uerr = some e →
      (rotateSecret env st info (some newValue) now).2.2.isSome = true ∧
      (rotateSecret env st info (some newValue) now).2.1 = info ∧
      oldSecret ∈ (rotateSecret env st info (some newValue) now).1.secrets ∧
      (env.removeNewOk = true →
        ∀ s ∈ (rotateSecret env st info (some newValue) now).1.secrets,
          s.id ≠ env.createId)) ∧
    (uerr = none →
      (rotateSecret env st info (some newValue) now).2.2 = none ∧
      (rotateSecret env st info (some newValue) now).2.1.lastHash = sha256hex newValue ∧
      (env.removeOldOk = true →
        oldSecret ∉ (rotateSecret env st info (some newValue) now).1.secrets) ∧
      (∃ s ∈ (rotateSecret env st info (some newValue) now).1.secrets,
        s.id = env.createId ∧ s.payload = newValue)) := by
  constructor
  · intro e he
    subst he
    have hupd : updateDockerSecret env st info.dockerSecretName newValue =
        (⟨(if env.removeNewOk then
            removeSecretById (st.secrets ++
              [⟨env.createId, info.dockerSecretName ++ "-" ++ toString env.nowNano,
                oldSecret.labels, newValue⟩]) env.createId
          else st.secrets ++
              [⟨env.createId, info.dockerSecretName ++ "-" ++ toString env.nowNano,
                oldSecret.labels, newValue⟩]), svcs⟩,
          some ("failed to update services to use new secret: " ++ e)) := by
      simp [updateDockerSecret, hlist, hfind, hcreate, hsu]
    have hrot : rotateSecret env st info (some newValue) now =
        (⟨(if env.removeNewOk then
            removeSecretById (st.secrets ++
              [⟨env.createId, info.dockerSecretName ++ "-" ++ toString env.nowNano,
                oldSecret.labels, newValue⟩]) env.createId
          else st.secrets ++
              [⟨env.createId, info.dockerSecretName ++ "-" ++ toString env.nowNano,
                oldSecret.labels, newValue⟩]), svcs⟩,
          info,
          some ("failed to update docker secret: " ++
            ("failed to update services to use new secret: " ++ e))) := by
      simp only [rotateSecret, hupd]
    refine ⟨by rw [hrot]; rfl, by rw [hrot], ?_, ?_⟩
    · rw [hrot]
      by_cases hrn : env.removeNewOk = true
      · simp only [hrn, if_true, removeSecretById, List.mem_filter]
        exact ⟨List.mem_append_left _ (findSecretByName_mem hfind), by simp [hfresh]⟩
      · simp only [hrn, if_false]
        exact List.mem_append_left _ (findSecretByName_mem hfind)
    · rw [hrot]
      intro hrn s hs
      simp only [hrn, if_true, removeSecretById, List.mem_filter] at hs
      simpa using hs.2
  · intro he
    subst he
    have hupd : updateDockerSecret env st info.dockerSecretName newValue =
        (⟨(if env.removeOldOk then
            removeSecretById (st.secrets ++
              [⟨env.createId, info.dockerSecretName ++ "-" ++ toString env.nowNano,
                oldSecret.labels, newValue⟩]) oldSecret.id
          else st.secrets ++
              [⟨env.createId, info.dockerSecretName ++ "-" ++ toString env.nowNano,
                oldSecret.labels, newValue⟩]), svcs⟩,
          none) := by
      simp [updateDockerSecret, hlist, hfind, hcreate, hsu]
    have hrot : rotateSecret env st info (some newValue) now =
        (⟨(if env.removeOldOk then
            removeSecretById (st.secrets ++
              [⟨env.createId, info.dockerSecretName ++ "-" ++ toString env.nowNano,
                oldSecret.labels, newValue⟩]) oldSecret.id
          else st.secrets ++
              [⟨env.createId, info.dockerSecretName ++ "-" ++ toString env.nowNano,
                oldSecret.labels, newValue⟩]), svcs⟩,
          { info with lastHash := sha256hex newValue, lastUpdated := now },
          none) := by
      simp only [rotateSecret, hupd]
    refine ⟨by rw [hrot], by rw [hrot], ?_, ?_⟩
    · rw [hrot]
      intro hro
      simp only [hro, if_true, removeSecretById, List.mem_filter]
      intro hmem
      simp at hmem
    · rw [hrot]
      by_cases hro : env.removeOldOk = true
      · refine ⟨⟨env.createId, info.dockerSecretName ++ "-" ++ toString env.nowNano,
          oldSecret.labels, newValue⟩, ?_, rfl, rfl⟩
        simp only [hro, if_true, removeSecretById, List.mem_filter]
        exact ⟨List.mem_append_right _ (List.mem_singleton_self _), by simp [Ne.symm hfresh]⟩
      · refine ⟨⟨env.createId, info.dockerSecretName ++ "-" ++ toString env.nowNano,
          oldSecret.labels, newValue⟩, ?_, rfl, rfl⟩
        simp only [hro, if_false]
        exact List.mem_append_right _ (List.mem_singleton_self _)

/-- Witness for C1: one service consuming the secret, whose update is made to
fail; the rotation reports failure, keeps the record and the old object, and
no object with the new identifier survives. -/
theorem rotation_rollback_and_commit_witness :
    (rotateSecret ⟨true, true, true, "id1", ["s1"], true, true, 7, 3⟩
        ⟨[⟨"id0", "db", [], [1]⟩], [⟨"s1", "web", [], [⟨"/run/db", "id0", "db"⟩]⟩]⟩
        ⟨"db", "secret/data/db", "value", ["web"], "fp", 0, "openbao"⟩
        (some [2]) 9).2.2.isSome = true ∧
    (rotateSecret ⟨true, true, true, "id1", ["s1"], true, true, 7, 3⟩
        ⟨[⟨"id0", "db", [], [1]⟩], [⟨"s1", "web", [], [⟨"/run/db", "id0", "db"⟩]⟩]⟩
        ⟨"db", "secret/data/db", "value", ["web"], "fp", 0, "openbao"⟩
        (some [2]) 9).2.1 = ⟨"db", "secret/data/db", "value", ["web"], "fp", 0, "openbao"⟩ ∧
    (⟨"id0", "db", [], [1]⟩ : DockerSecret) ∈
      (rotateSecret ⟨true, true, true, "id1", ["s1"], true, true, 7, 3⟩
        ⟨[⟨"id0", "db", [], [1]⟩], [⟨"s1", "web", [], [⟨"/run/db", "id0", "db"⟩]⟩]⟩
        ⟨"db", "secret/data/db", "value", ["web"], "fp", 0, "openbao"⟩
        (some [2]) 9).1.secrets ∧
    ((⟨true, true, true, "id1", ["s1"], true, true, 7, 3⟩ : RotateEnv).removeNewOk = true →
      ∀ s ∈ (rotateSecret ⟨true, true, true, "id1", ["s1"], true, true, 7, 3⟩
          ⟨[⟨"id0", "db", [], [1]⟩], [⟨"s1", "web", [], [⟨"/run/db", "id0", "db"⟩]⟩]⟩
          ⟨"db", "secret/data/db", "value", ["web"], "fp", 0, "openbao"⟩
          (some [2]) 9).1.secrets,
        s.id ≠ (⟨true, true, true, "id1", ["s1"], true, true, 7, 3⟩ : RotateEnv).createId) :=
  (rotation_rollback_and_commit
      ⟨true, true, true, "id1", ["s1"], true, true, 7, 3⟩
      ⟨[⟨"id0", "db", [], [1]⟩], [⟨"s1", "web", [], [⟨"/run/db", "id0", "db"⟩]⟩]⟩
      ⟨"db", "secret/data/db", "value", ["web"], "fp", 0, "openbao"⟩
      [2] 9 ⟨"id0", "db", [], [1]⟩
      [⟨"s1", "web", [], [⟨"/run/db", "id0", "db"⟩]⟩]
      (some "failed to update service web")
      rfl rfl rfl (by decide) rfl).1
    "failed to update service web" rfl
